import Mathlib

/-!
Shallow embedding of the credit-risk scoring core of the
`sas-banking-brochure` repository, together with theorems settling the
frozen claims about its specification.

The embedding covers:
 * `BankingIntelligenceEngine.calculate_comprehensive_assessment`
   (src/model_pipeline/src/app.py, lines 132-272) and its helpers
   `_identify_upsell_opportunities` and `_calculate_investment_readiness`;
 * the `/predict` endpoint `predict_credit_risk` (lines 525-545);
 * the `/assess/comprehensive` endpoint `comprehensive_credit_assessment`
   (lines 547-583);
 * `SASModelLoader.load_sas_model` / `_load_fallback_model` (lines 56-106);
 * the request model `CreditRiskRequest` (lines 388-405) with its
   pydantic defaults for optional fields;
 * the coefficient-file parser `ModelLoader.load_model_artifacts` of the
   draft pipeline (src/Initial_draft_plan/SAS_Event/credit_risk_pipeline/
   src/app.py, lines 35-54).

Python floats are modelled by exact rationals (`ℚ`), and the logistic
transform `1/(1+np.exp(-x))` by the real exponential.  The Python builtin
`round` uses banker (half-to-even) rounding; it is modelled here by `round` (round half up),
which agrees with it except at exact half-way ties, none of which occur
in any claim.
-/

namespace SasBanking

/-- Risk levels; the string values of the `RiskLevel` enum of the source
are given by `RiskLevel.value`. -/
inductive RiskLevel where
  | low
  | medium
  | high
deriving DecidableEq

/-- String payload of the `RiskLevel` enum (app.py lines 109-112). -/
def RiskLevel.value : RiskLevel → String
  | .low => "low_risk"
  | .medium => "medium_risk"
  | .high => "high_risk"

/-- Customer segments (app.py lines 114-118). -/
inductive CustomerSegment where
  | premium
  | standard
  | emerging
  | highRisk
deriving DecidableEq

/-- String payload of the `CustomerSegment` enum. -/
def CustomerSegment.value : CustomerSegment → String
  | .premium => "premium"
  | .standard => "standard"
  | .emerging => "emerging"
  | .highRisk => "high_risk"

/-- The feature dictionary handed to
`BankingIntelligenceEngine.calculate_comprehensive_assessment`.  Each
field is `none` when the corresponding key is absent from the Python
dict; booleans keep their own type, every other value is a number. -/
structure FeatureRecord where
  Income : Option ℚ
  Age : Option ℚ
  LoanAmount : Option ℚ
  CreditScore : Option ℚ
  DebtToIncome : Option ℚ
  EmploymentYears : Option ℚ
  LoanTerm : Option ℚ
  SocialMediaRiskScore : Option ℚ
  DeviceUsageScore : Option ℚ
  NumberOfProducts : Option ℚ
  HasInvestmentAccount : Option Bool
  AccountTenure : Option ℚ
  LatePayments : Option ℚ
  OverdraftEvents : Option ℚ

/-- Models features.get(Income, 50000) of app.py line 142. -/
def incomeOf (f : FeatureRecord) : ℚ := f.Income.getD 50000

/-- Models features.get(CreditScore, 650) of app.py line 143. -/
def creditScoreOf (f : FeatureRecord) : ℚ := f.CreditScore.getD 650

/-- Models features.get(DebtToIncome, 0.35) of app.py line 144. -/
def debtRatioOf (f : FeatureRecord) : ℚ := f.DebtToIncome.getD 0.35

/-- Models features.get(EmploymentYears, 3) of app.py line 145. -/
def empYearsOf (f : FeatureRecord) : ℚ := f.EmploymentYears.getD 3

/-- Models features.get(Age, 35) of app.py line 146. -/
def ageOf (f : FeatureRecord) : ℚ := f.Age.getD 35

/-- Models features.get(LoanAmount, 25000) of app.py line 147. -/
def loanAmountOf (f : FeatureRecord) : ℚ := f.LoanAmount.getD 25000

/-- Models features.get(SocialMediaRiskScore, 3) of app.py line 173. -/
def socialRiskOf (f : FeatureRecord) : ℚ := f.SocialMediaRiskScore.getD 3

/-- Models features.get(DeviceUsageScore, 50) of app.py line 174. -/
def deviceScoreOf (f : FeatureRecord) : ℚ := f.DeviceUsageScore.getD 50

/-- Models features.get(NumberOfProducts, 2) of app.py line 175. -/
def numProductsOf (f : FeatureRecord) : ℚ := f.NumberOfProducts.getD 2

/-- Models features.get(HasInvestmentAccount, False) of app.py line 176. -/
def hasInvestmentOf (f : FeatureRecord) : Bool := f.HasInvestmentAccount.getD false

/-- Models features.get(LatePayments, 0) of app.py line 177. -/
def latePaymentsOf (f : FeatureRecord) : ℚ := f.LatePayments.getD 0

/-- Models features.get(OverdraftEvents, 0) of app.py line 178. -/
def overdraftsOf (f : FeatureRecord) : ℚ := f.OverdraftEvents.getD 0

/-- Models features.get(AccountTenure, emp_years * 12) of app.py line 198. -/
def tenureOf (f : FeatureRecord) : ℚ := f.AccountTenure.getD (empYearsOf f * 12)

/-- The linear combination (`linear_combo`) built in
`calculate_comprehensive_assessment`, app.py lines 139-212, before the
clamp on line 215. -/
def linearCombo (f : FeatureRecord) : ℚ :=
  let lc0 : ℚ := -2.8
  let lc1 := lc0 + (850 - creditScoreOf f) * 0.0045
  let lc2 := lc1 - (incomeOf f - 50000) * 0.000012
  let lc3 := lc2 + debtRatioOf f * 4.2
  let lc4 := lc3 - empYearsOf f * 0.08
  let lc5 := lc4 +
    (if ageOf f < 25 ∨ ageOf f > 65 then 0.6
     else if ageOf f < 30 ∨ ageOf f > 55 then 0.2 else 0)
  let loanToIncome := loanAmountOf f / max (incomeOf f) 1
  let lc6 := lc5 + loanToIncome * 1.8
  let lc7 := lc6 + (socialRiskOf f - 1) * 0.35
  let lc8 := lc7 + (50 - deviceScoreOf f) * 0.008
  let lc9 := lc8 - (numProductsOf f - 1) * 0.25
  let lc10 := lc9 - (if hasInvestmentOf f then 0.45 else 0)
  let lc11 := lc10 + latePaymentsOf f * 0.4
  let lc12 := lc11 + overdraftsOf f * 0.25
  let lc13 := lc12 - min (tenureOf f) 60 * 0.008
  let lc14 := lc13 + (if debtRatioOf f > 0.4 ∧ creditScoreOf f < 650 then 0.8 else 0)
  let lc15 := lc14 -
    (if incomeOf f > 100000 ∧ hasInvestmentOf f = true ∧ creditScoreOf f > 750
     then 0.6 else 0)
  let lc16 := lc15 + (if ageOf f < 30 ∧ socialRiskOf f ≥ 4 then 0.4 else 0)
  lc16

/-- `linear_combo = max(-4.5, min(4.5, linear_combo))` (app.py line 215). -/
def clampedLogit (f : FeatureRecord) : ℚ := max (-4.5) (min 4.5 (linearCombo f))

/-- The logistic transform `1 / (1 + np.exp(-x))`. -/
noncomputable def sigmoid (x : ℝ) : ℝ := 1 / (1 + Real.exp (-x))

/-- `risk_probability` after the clamp on app.py line 221:
`max(0.005, min(0.85, 1/(1+exp(-linear_combo))))`. -/
noncomputable def riskProbability (f : FeatureRecord) : ℝ :=
  max 0.005 (min 0.85 (sigmoid ((clampedLogit f : ℚ) : ℝ)))

/-- `risk_level` from the clamped probability (app.py lines 227-232). -/
noncomputable def riskLevel (f : FeatureRecord) : RiskLevel :=
  if riskProbability f < 0.3 then .low
  else if riskProbability f < 0.7 then .medium
  else .high

/-- `alt_data_impact` (app.py line 224). -/
def altDataImpact (f : FeatureRecord) : ℚ :=
  |(socialRiskOf f - 3) * 0.35| + |(50 - deviceScoreOf f) * 0.008| +
    latePaymentsOf f * 0.4 + overdraftsOf f * 0.25

/-- `customer_segment` (app.py lines 234-246); note that this block
re-reads income, credit score and investment flag with defaults 0, 0 and
False. -/
noncomputable def customerSegment (f : FeatureRecord) : CustomerSegment :=
  let income := f.Income.getD 0
  let credit := f.CreditScore.getD 0
  let inv := f.HasInvestmentAccount.getD false
  if income > 100000 ∧ credit > 750 ∧ inv = true then .premium
  else if riskLevel f = .high then .highRisk
  else if income < 40000 ∨ credit < 650 then .emerging
  else .standard

/-- `ltv_multiplier` lookup (app.py lines 250-251); all four segment
values are present in the dict, so the `.get` default 1.0 is unused. -/
def segmentMultiplier : CustomerSegment → ℚ
  | .premium => 2.5
  | .standard => 1.5
  | .emerging => 1
  | .highRisk => 0.5

/-- `self.risk_premiums` (app.py lines 126-130). -/
def riskPremium : RiskLevel → ℚ
  | .low => 0
  | .medium => 0.015
  | .high => 0.035

/-- `round(x, 2)` on a rational. -/
def round2q (q : ℚ) : ℚ := (round (q * 100) : ℤ) / 100

/-- `round(x, 4)` on a rational. -/
def round4q (q : ℚ) : ℚ := (round (q * 10000) : ℤ) / 10000

/-- `round(x, 4)` on a real. -/
noncomputable def round4 (x : ℝ) : ℝ := ((round (x * 10000) : ℤ) : ℝ) / 10000

/-- `int(q)`: Python truncation toward zero. -/
def intTrunc (q : ℚ) : ℤ := if q < 0 then ⌈q⌉ else ⌊q⌋

/-- `_identify_upsell_opportunities` (app.py lines 274-296); income,
investment flag, product count and age are re-read with defaults 0,
False, 0 and 0. -/
noncomputable def upsellProducts (f : FeatureRecord) : List String :=
  let income := f.Income.getD 0
  let inv := f.HasInvestmentAccount.getD false
  let nprod := f.NumberOfProducts.getD 0
  (if riskLevel f = .low then
    (if inv = false ∧ income > 60000 then ["Investment Portfolio Management"] else []) ++
    (if income > 80000 then ["Premium Credit Card"] else []) ++
    (if nprod < 3 then ["Mortgage Pre-approval"] else [])
   else []) ++
  (if customerSegment f = .premium then
    ["Private Banking Services", "Wealth Management"] else []) ++
  (if f.Age.getD 0 > 45 ∧ inv = false then ["Retirement Planning"] else [])

/-- `_calculate_investment_readiness` (app.py lines 298-328). -/
def investmentReadiness (f : FeatureRecord) : ℚ :=
  let s1 : ℚ :=
    if f.Income.getD 0 > 100000 then 0.4
    else if f.Income.getD 0 > 60000 then 0.2 else 0
  let s2 : ℚ :=
    if 30 ≤ f.Age.getD 0 ∧ f.Age.getD 0 ≤ 55 then 0.3
    else if 25 ≤ f.Age.getD 0 ∧ f.Age.getD 0 ≤ 65 then 0.2 else 0
  let s3 : ℚ :=
    if f.CreditScore.getD 0 > 750 then 0.2
    else if f.CreditScore.getD 0 > 650 then 0.1 else 0
  let s4 : ℚ := if f.EmploymentYears.getD 0 > 5 then 0.1 else 0
  min (s1 + s2 + s3 + s4) 1

/-- The dict returned by `calculate_comprehensive_assessment`
(app.py lines 262-272). -/
structure Assessment where
  risk_level : RiskLevel
  risk_probability : ℝ
  traditional_score : ℤ
  alternative_data_impact : ℚ
  customer_segment : CustomerSegment
  lifetime_value_estimate : ℚ
  risk_adjusted_pricing : ℚ
  upsell_products : List String
  investment_readiness_score : ℚ

/-- `BankingIntelligenceEngine.calculate_comprehensive_assessment`
(app.py lines 132-272). -/
noncomputable def calculateComprehensiveAssessment (f : FeatureRecord) : Assessment :=
  { risk_level := riskLevel f
    risk_probability := round4 (riskProbability f)
    traditional_score := intTrunc (f.CreditScore.getD 0)
    alternative_data_impact := round4q (altDataImpact f)
    customer_segment := customerSegment f
    lifetime_value_estimate :=
      round2q (f.Income.getD 0 * 0.15 * segmentMultiplier (customerSegment f))
    risk_adjusted_pricing := round2q ((0.045 + riskPremium (riskLevel f)) * 100)
    upsell_products := upsellProducts f
    investment_readiness_score := round2q (investmentReadiness f) }

/-- The pydantic request model `CreditRiskRequest` (app.py lines
388-405).  The first seven fields are required; the optional fields are
`none` when the JSON request omits them, in which case pydantic fills in
the declared defaults (0.3, 0.7, 2, False, 24, 0, 1). -/
structure CreditRiskRequest where
  Income : ℚ
  Age : ℚ
  LoanAmount : ℚ
  CreditScore : ℚ
  DebtToIncome : ℚ
  EmploymentYears : ℚ
  LoanTerm : ℚ
  SocialMediaRiskScore : Option ℚ
  DeviceUsageScore : Option ℚ
  NumberOfProducts : Option ℚ
  HasInvestmentAccount : Option Bool
  AccountTenure : Option ℚ
  LatePayments : Option ℚ
  OverdraftEvents : Option ℚ

/-- `request.dict()`: the feature dictionary the endpoints pass to the
engine.  Every key is present; absent optional fields have been replaced
by the pydantic defaults of app.py lines 399-405. -/
def CreditRiskRequest.dict (r : CreditRiskRequest) : FeatureRecord :=
  { Income := some r.Income
    Age := some r.Age
    LoanAmount := some r.LoanAmount
    CreditScore := some r.CreditScore
    DebtToIncome := some r.DebtToIncome
    EmploymentYears := some r.EmploymentYears
    LoanTerm := some r.LoanTerm
    SocialMediaRiskScore := some (r.SocialMediaRiskScore.getD 0.3)
    DeviceUsageScore := some (r.DeviceUsageScore.getD 0.7)
    NumberOfProducts := some (r.NumberOfProducts.getD 2)
    HasInvestmentAccount := some (r.HasInvestmentAccount.getD false)
    AccountTenure := some (r.AccountTenure.getD 24)
    LatePayments := some (r.LatePayments.getD 0)
    OverdraftEvents := some (r.OverdraftEvents.getD 1) }

/-- `request.dict().items()` as iterated by `predict_credit_risk`
(app.py lines 531-535), in pydantic field order; the boolean
`HasInvestmentAccount` multiplies as 1/0 in Python arithmetic. -/
def CreditRiskRequest.toPairs (r : CreditRiskRequest) : List (String × ℚ) :=
  [("Income", r.Income), ("Age", r.Age), ("LoanAmount", r.LoanAmount),
   ("CreditScore", r.CreditScore), ("DebtToIncome", r.DebtToIncome),
   ("EmploymentYears", r.EmploymentYears), ("LoanTerm", r.LoanTerm),
   ("SocialMediaRiskScore", r.SocialMediaRiskScore.getD 0.3),
   ("DeviceUsageScore", r.DeviceUsageScore.getD 0.7),
   ("NumberOfProducts", r.NumberOfProducts.getD 2),
   ("HasInvestmentAccount", if r.HasInvestmentAccount.getD false then 1 else 0),
   ("AccountTenure", r.AccountTenure.getD 24),
   ("LatePayments", r.LatePayments.getD 0),
   ("OverdraftEvents", r.OverdraftEvents.getD 1)]

/-- State of `SASModelLoader` after `load_sas_model` ran
(app.py lines 56-106). -/
structure LoaderState where
  coefficients : List (String × ℚ)
  modelName : String
  model_ready : Bool

/-- `_load_fallback_model` (app.py lines 102-106). -/
def fallbackModel : LoaderState :=
  { coefficients := [("Intercept", 0), ("Fallback", 1)]
    modelName := "Fallback Model"
    model_ready := true }

/-- What the model-artifact directory offers `load_sas_model`:
either no readable artifact files (`missing`, which also covers files
that raise on parsing, app.py lines 98-100), or a parsed coefficient
dict together with the metadata model name. -/
inductive ArtifactSource where
  | missing
  | files (coefficients : List (String × ℚ)) (modelName : String)

/-- `SASModelLoader.load_sas_model` (app.py lines 63-100): absent or
unreadable artifacts load the fallback model, otherwise
`model_ready = len(coefficients) > 0`. -/
def loadSasModel : ArtifactSource → LoaderState
  | .missing => fallbackModel
  | .files c name =>
    { coefficients := c, modelName := name, model_ready := decide (0 < c.length) }

/-- Dictionary lookup in the coefficient table. -/
def coeffLookup (tbl : List (String × ℚ)) (k : String) : Option ℚ :=
  (tbl.find? (fun p => p.1 = k)).map (fun p => p.2)

/-- One iteration of the loop of app.py lines 533-535: the term
`coefficients[feature] * value` is added only when the feature name is a
key of the coefficient table. -/
def predictStep (tbl : List (String × ℚ)) (acc : ℚ) (p : String × ℚ) : ℚ :=
  match coeffLookup tbl p.1 with
  | some c => acc + c * p.2
  | none => acc

/-- `linear_combo` of `predict_credit_risk` (app.py lines 532-535),
starting from coefficients.get(Intercept, 0). -/
def predictLogit (tbl : List (String × ℚ)) (pairs : List (String × ℚ)) : ℚ :=
  pairs.foldl (predictStep tbl) ((coeffLookup tbl "Intercept").getD 0)

/-- Body of the `/predict` response (app.py lines 537-545). -/
structure PredictResponse where
  prediction : String
  risk_probability : ℝ
  model_name : String

/-- The prediction computation of `predict_credit_risk`
(app.py lines 531-545), after the readiness check. -/
noncomputable def predictCore (st : LoaderState) (pairs : List (String × ℚ)) :
    PredictResponse :=
  let p := sigmoid ((predictLogit st.coefficients pairs : ℚ) : ℝ)
  { prediction := if p > 0.5 then "high_risk" else "low_risk"
    risk_probability := p
    model_name := st.modelName }

/-- `/predict` endpoint `predict_credit_risk` (app.py lines 525-545):
responds 503 when the model is not ready. -/
noncomputable def predictCreditRisk (st : LoaderState) (r : CreditRiskRequest) :
    Except ℕ PredictResponse :=
  if st.model_ready then .ok (predictCore st r.toPairs) else .error 503

/-- Body of the `/assess/comprehensive` response, restricted to the
fields the claims are about (app.py lines 569-583). -/
structure ComprehensiveResponse where
  risk_level : RiskLevel
  risk_probability : ℝ
  customer_segment : CustomerSegment
  risk_adjusted_pricing : ℚ
  regulatory_flags : List String
  confidence_lower : ℝ
  confidence_upper : ℝ
  upsell_products : List String
  investment_readiness_score : ℚ

/-- The response construction of `comprehensive_credit_assessment`
(app.py lines 553-583), after the readiness check: the regulatory flags
of lines 557-561 and the confidence interval of lines 564-567 computed
from the (rounded) assessment probability. -/
noncomputable def comprehensiveResponse (r : CreditRiskRequest) : ComprehensiveResponse :=
  let features := r.dict
  let a := calculateComprehensiveAssessment features
  { risk_level := a.risk_level
    risk_probability := a.risk_probability
    customer_segment := a.customer_segment
    risk_adjusted_pricing := a.risk_adjusted_pricing
    regulatory_flags :=
      (if features.DebtToIncome.getD 0 > 0.43
       then ["High DTI - QM rule consideration"] else []) ++
      (if features.Age.getD 0 < 21
       then ["Young borrower - additional verification required"] else [])
    confidence_lower := max 0 (a.risk_probability - 0.1)
    confidence_upper := min 1 (a.risk_probability + 0.1)
    upsell_products := a.upsell_products
    investment_readiness_score := a.investment_readiness_score }

/-- `/assess/comprehensive` endpoint (app.py lines 547-583). -/
noncomputable def comprehensiveCreditAssessment (st : LoaderState)
    (r : CreditRiskRequest) : Except ℕ ComprehensiveResponse :=
  if st.model_ready then .ok (comprehensiveResponse r) else .error 503

/-- Split a character list at every occurrence of `c` (the separator is
dropped), like Python `str.split(c)`. -/
def splitOnChar (c : Char) : List Char → List (List Char)
  | [] => [[]]
  | x :: xs =>
    match splitOnChar c xs with
    | [] => if x = c then [[], []] else [[x]]
    | g :: gs => if x = c then [] :: g :: gs else (x :: g) :: gs

/-- Whitespace characters removed by Python `str.strip()` (the ones that
can occur in a coefficient file). -/
def isPyStrippable (c : Char) : Bool :=
  c = ' ' ∨ c = '\t' ∨ c = '\r' ∨ c = '\n'

/-- Python `str.strip()`. -/
def pyStrip (l : List Char) : List Char :=
  ((l.dropWhile isPyStrippable).reverse.dropWhile isPyStrippable).reverse

/-- Numeric value of a decimal digit. -/
def digitVal (c : Char) : Option ℕ :=
  if c.isDigit then some (c.toNat - 48) else none

/-- Parse a nonempty all-digit character list as a natural number. -/
def parseNatDigits (l : List Char) : Option ℕ :=
  match l with
  | [] => none
  | _ =>
    l.foldl (fun acc c => do
      let a ← acc
      let d ← digitVal c
      pure (a * 10 + d)) (some 0)

/-- Parse an unsigned decimal literal (`"12"`, `"0.1"`, `"1."`, `".5"`)
as a rational, as Python `float()` does on such inputs. -/
def parseUnsignedDec (l : List Char) : Option ℚ :=
  match splitOnChar '.' l with
  | [intPart] => (parseNatDigits intPart).map (fun n => mkRat n 1)
  | [intPart, fracPart] =>
    if intPart = [] ∧ fracPart = [] then none
    else do
      let ip ← if intPart = [] then some 0 else parseNatDigits intPart
      let fp ← if fracPart = [] then some 0 else parseNatDigits fracPart
      pure (mkRat (ip * 10 ^ fracPart.length + fp) (10 ^ fracPart.length))
  | _ => none

/-- Python `float()` on a (possibly signed) decimal literal, after
stripping surrounding whitespace. -/
def parseFloat (l : List Char) : Option ℚ :=
  match pyStrip l with
  | '-' :: rest => (parseUnsignedDec rest).map (fun q => mkRat (-q.num) q.den)
  | '+' :: rest => parseUnsignedDec rest
  | rest => parseUnsignedDec rest

/-- Python-dict insertion: an existing key is overwritten in place, a
new key is appended. -/
def dictInsert (tbl : List (String × ℚ)) (k : String) (v : ℚ) :
    List (String × ℚ) :=
  if tbl.any (fun p => p.1 = k) then
    tbl.map (fun p => if p.1 = k then (k, v) else p)
  else tbl ++ [(k, v)]

/-- One line of the coefficient-file loop of
`ModelLoader.load_model_artifacts` (draft app.py lines 40-43):
strip the line, skip it when blank, split it at the comma and store
float(coeff) under the key var.  The outer `none` is the exception path (a line that
does not split into exactly two parts, or a coefficient `float()`
rejects); `some none` is a skipped blank line. -/
def parseCoeffLine (l : List Char) : Option (Option (String × ℚ)) :=
  let s := pyStrip l
  if s = [] then some none
  else
    match splitOnChar ',' s with
    | [v, c] =>
      match parseFloat c with
      | some q => some (some (String.mk v, q))
      | none => none
    | _ => none

/-- `ModelLoader.load_model_artifacts`, coefficient part (draft app.py
lines 35-54): parse a newline-delimited `name,value` file into the
coefficient dict; `none` when a line is malformed (the source then
re-raises the exception). -/
def loadCoefficients (content : String) : Option (List (String × ℚ)) :=
  (splitOnChar '\n' content.data).foldl
    (fun acc line => do
      let tbl ← acc
      match parseCoeffLine line with
      | none => none
      | some none => pure tbl
      | some (some e) => pure (dictInsert tbl e.1 e.2))
    (some [])

/-- Least `k` (searched up to the fuel bound) with `d ∣ 10 ^ k`. -/
def decExpSearch (d : ℕ) : ℕ → ℕ → Option ℕ
  | _, 0 => none
  | k, fuel + 1 =>
    if 10 ^ k % d = 0 then some k else decExpSearch d (k + 1) fuel

/-- Left-pad a digit string with zeros to the given length. -/
def padZeros (len : ℕ) (s : String) : String :=
  String.mk (List.replicate (len - s.length) '0') ++ s

/-- Render a rational with a power-of-ten denominator as the shortest
plain decimal literal (`1/10 ↦ "0.1"`, `-1/500 ↦ "-0.002"`); integers
are rendered Python-float style with a trailing `.0`. -/
def ratToDecimalString (q : ℚ) : String :=
  let sign := if q < 0 then "-" else ""
  let n := q.num.natAbs
  let d := q.den
  match decExpSearch d 0 30 with
  | none => sign ++ toString n ++ "/" ++ toString d
  | some 0 => sign ++ toString n ++ ".0"
  | some (k + 1) =>
    let scaled := n * (10 ^ (k + 1) / d)
    let ip := scaled / 10 ^ (k + 1)
    let fp := scaled % 10 ^ (k + 1)
    sign ++ toString ip ++ "." ++ padZeros (k + 1) (toString fp)

/-- Modelled from the spec: the repository contains no serializer for
the coefficient table (only the parser above); the spec describes the
artifact format as "newline-delimited `name,value` pairs", so
serialization writes one `name,value` line per entry. -/
def serializeCoefficients (tbl : List (String × ℚ)) : String :=
  String.intercalate "\n" (tbl.map (fun p => p.1 ++ "," ++ ratToDecimalString p.2))

/-- Concrete scenario 1 of the spec (and the documented example request):
Income 75000, Age 35, LoanAmount 200000, CreditScore 750, DebtToIncome
0.25, EmploymentYears 8, LoanTerm 30, every optional field absent. -/
def standardRequest : CreditRiskRequest :=
  { Income := 75000, Age := 35, LoanAmount := 200000, CreditScore := 750,
    DebtToIncome := 0.25, EmploymentYears := 8, LoanTerm := 30,
    SocialMediaRiskScore := none, DeviceUsageScore := none,
    NumberOfProducts := none, HasInvestmentAccount := none,
    AccountTenure := none, LatePayments := none, OverdraftEvents := none }

/-- Concrete scenario 2 of the spec: the high-risk profile, with the
social-media score a parameter (0.8 on a 0-1 scale, 4 on a 1-5 scale). -/
def highRiskRequest (social : ℚ) : CreditRiskRequest :=
  { Income := 35000, Age := 24, LoanAmount := 250000, CreditScore := 580,
    DebtToIncome := 0.65, EmploymentYears := 2, LoanTerm := 30,
    SocialMediaRiskScore := some social, DeviceUsageScore := none,
    NumberOfProducts := none, HasInvestmentAccount := none,
    AccountTenure := none, LatePayments := some 4, OverdraftEvents := some 6 }

/-- A feature dictionary with every key absent (a direct call to the
engine without the request layer). -/
def emptyFeatures : FeatureRecord :=
  ⟨none, none, none, none, none, none, none,
   none, none, none, none, none, none, none⟩

/-- The coefficient file of the round-trip scenario. -/
def c8File : String := "Intercept,0.1\nCreditScore,-0.002"

/-- Rewriting the sigmoid with a positive denominator on the other side. -/
lemma sigmoid_eq_exp_div (l : ℝ) : sigmoid l = Real.exp l / (Real.exp l + 1) := by
  unfold sigmoid
  rw [Real.exp_neg]
  have h0 : Real.exp l ≠ 0 := ne_of_gt (Real.exp_pos l)
  have h1 : 1 + (Real.exp l)⁻¹ ≠ 0 := by positivity
  field_simp

/-- The sigmoid is monotone. -/
lemma sigmoid_le_sigmoid {a b : ℝ} (h : a ≤ b) : sigmoid a ≤ sigmoid b := by
  unfold sigmoid
  have h2 : (0 : ℝ) < 1 + Real.exp (-b) := by positivity
  apply one_div_le_one_div_of_le h2
  have h3 := Real.exp_le_exp.mpr (neg_le_neg h)
  linarith

/-- Cubic lower bound on the exponential from the linear one. -/
lemma exp_cube_lower {x : ℝ} (hx : 0 ≤ x) : (1 + x / 3) ^ 3 ≤ Real.exp x := by
  have h1 : x / 3 + 1 ≤ Real.exp (x / 3) := Real.add_one_le_exp (x / 3)
  have h2 : Real.exp x = Real.exp (x / 3) ^ 3 := by
    rw [← Real.exp_nat_mul]
    congr 1
    ring
  rw [h2]
  have h0 : (0 : ℝ) ≤ 1 + x / 3 := by linarith
  exact pow_le_pow_left h0 (by linarith) 3

/-- The sigmoid reaches the upper probability clamp 0.85 as soon as the
exponential of the logit reaches 17/3. -/
lemma sigmoid_ge_085 {l : ℝ} (h : (17 : ℝ) / 3 ≤ Real.exp l) :
    (0.85 : ℝ) ≤ sigmoid l := by
  rw [sigmoid_eq_exp_div]
  rw [le_div_iff (by positivity)]
  linarith

/-- Numeric upper bound on the exponential at the clamp boundary. -/
lemma exp_45_lt_199 : Real.exp 4.5 < 199 := by
  have h1 : Real.exp 4.5 ≤ Real.exp 5 := Real.exp_le_exp.mpr (by norm_num)
  have h2 : Real.exp 5 = Real.exp 1 ^ 5 := by
    rw [← Real.exp_nat_mul]
    norm_num
  have h3 : Real.exp 1 ^ 5 < 2.7182818286 ^ 5 :=
    pow_lt_pow_left Real.exp_one_lt_d9 (le_of_lt (Real.exp_pos 1)) (by norm_num)
  have h4 : (2.7182818286 : ℝ) ^ 5 < 199 := by norm_num
  linarith

/-- When the sigmoid of the clamped logit is at least 0.85, the clamped
probability is exactly 0.85. -/
lemma prob_eq_085 {f : FeatureRecord}
    (h : (0.85 : ℝ) ≤ sigmoid ((clampedLogit f : ℚ) : ℝ)) :
    riskProbability f = 0.85 := by
  unfold riskProbability
  rw [min_eq_left h, max_eq_right (by norm_num : (0.005 : ℝ) ≤ 0.85)]

/-- Sufficient rational-arithmetic criterion for the probability to hit
the upper clamp. -/
lemma prob_eq_085_of_cube {f : FeatureRecord} {q : ℚ}
    (h : clampedLogit f = q) (h0 : (0 : ℝ) ≤ (q : ℝ))
    (hc : (17 : ℝ) / 3 ≤ (1 + (q : ℝ) / 3) ^ 3) :
    riskProbability f = 0.85 := by
  apply prob_eq_085
  rw [h]
  exact sigmoid_ge_085 (le_trans hc (exp_cube_lower h0))

/-- A probability of 0.85 classifies as high risk. -/
lemma riskLevel_high_of_085 {f : FeatureRecord}
    (h : riskProbability f = 0.85) : riskLevel f = RiskLevel.high := by
  unfold riskLevel
  rw [h]
  rw [if_neg (by norm_num), if_neg (by norm_num)]

/-- Rounding to four decimals keeps a value inside the probability
clamp interval. -/
lemma round4_bounds {x : ℝ} (h1 : (0.005 : ℝ) ≤ x) (h2 : x ≤ 0.85) :
    (0.005 : ℝ) ≤ round4 x ∧ round4 x ≤ 0.85 := by
  unfold round4
  have hlo : (50 : ℤ) ≤ round (x * 10000) := by
    rw [round_eq]
    refine Int.le_floor.mpr ?_
    push_cast
    linarith
  have hhi : round (x * 10000) ≤ (8500 : ℤ) := by
    rw [round_eq]
    refine Int.lt_add_one_iff.mp ?_
    refine Int.floor_lt.mpr ?_
    push_cast
    linarith
  have hlo2 : ((50 : ℤ) : ℝ) ≤ ((round (x * 10000) : ℤ) : ℝ) := Int.cast_le.mpr hlo
  have hhi2 : ((round (x * 10000) : ℤ) : ℝ) ≤ ((8500 : ℤ) : ℝ) := Int.cast_le.mpr hhi
  push_cast at hlo2 hhi2
  constructor
  · rw [le_div_iff (by norm_num : (0 : ℝ) < 10000)]
    linarith
  · rw [div_le_iff (by norm_num : (0 : ℝ) < 10000)]
    linarith

/-- Rounding 0.85 to four decimals gives 0.85. -/
lemma round4_085 : round4 (0.85 : ℝ) = 0.85 := by
  unfold round4
  rw [show (0.85 : ℝ) * 10000 = ((8500 : ℕ) : ℝ) by norm_num, round_natCast]
  norm_num

/-- C1: for every feature record the engine clamps the logit to
[-4.5, 4.5] and the probability to [0.005, 0.85]; the returned
(rounded) risk probability also lies in [0.005, 0.85], and the risk
level is low exactly when the probability is below 0.3, medium exactly
when it is in [0.3, 0.7), and high otherwise. -/
theorem C1_probability_bounds_and_levels (f : FeatureRecord) :
    (-4.5 : ℚ) ≤ clampedLogit f ∧ clampedLogit f ≤ 4.5 ∧
    (0.005 : ℝ) ≤ riskProbability f ∧ riskProbability f ≤ 0.85 ∧
    (0.005 : ℝ) ≤ (calculateComprehensiveAssessment f).risk_probability ∧
    (calculateComprehensiveAssessment f).risk_probability ≤ 0.85 ∧
    (riskLevel f = RiskLevel.low ↔ riskProbability f < 0.3) ∧
    (riskLevel f = RiskLevel.medium ↔
      0.3 ≤ riskProbability f ∧ riskProbability f < 0.7) ∧
    (riskLevel f = RiskLevel.high ↔ 0.7 ≤ riskProbability f) := by
  have h1 : (-4.5 : ℚ) ≤ clampedLogit f := le_max_left _ _
  have h2 : clampedLogit f ≤ 4.5 := max_le (by norm_num) (min_le_left _ _)
  have hp1 : (0.005 : ℝ) ≤ riskProbability f := le_max_left _ _
  have hp2 : riskProbability f ≤ 0.85 := max_le (by norm_num) (min_le_left _ _)
  have hr : (calculateComprehensiveAssessment f).risk_probability =
      round4 (riskProbability f) := rfl
  have hrb := round4_bounds hp1 hp2
  have hlow : riskLevel f = RiskLevel.low ↔ riskProbability f < 0.3 := by
    unfold riskLevel
    by_cases ha : riskProbability f < 0.3
    · rw [if_pos ha]
      exact iff_of_true rfl ha
    · rw [if_neg ha]
      by_cases hb : riskProbability f < 0.7
      · rw [if_pos hb]
        exact iff_of_false (fun h => RiskLevel.noConfusion h) ha
      · rw [if_neg hb]
        exact iff_of_false (fun h => RiskLevel.noConfusion h) ha
  have hmed : riskLevel f = RiskLevel.medium ↔
      0.3 ≤ riskProbability f ∧ riskProbability f < 0.7 := by
    unfold riskLevel
    by_cases ha : riskProbability f < 0.3
    · rw [if_pos ha]
      exact iff_of_false (fun h => RiskLevel.noConfusion h)
        (fun h => absurd ha (not_lt.mpr h.1))
    · rw [if_neg ha]
      by_cases hb : riskProbability f < 0.7
      · rw [if_pos hb]
        exact iff_of_true rfl ⟨le_of_not_lt ha, hb⟩
      · rw [if_neg hb]
        exact iff_of_false (fun h => RiskLevel.noConfusion h) (fun h => absurd h.2 hb)
  have hhigh : riskLevel f = RiskLevel.high ↔ 0.7 ≤ riskProbability f := by
    unfold riskLevel
    by_cases ha : riskProbability f < 0.3
    · rw [if_pos ha]
      exact iff_of_false (fun h => RiskLevel.noConfusion h) (fun h => by linarith)
    · rw [if_neg ha]
      by_cases hb : riskProbability f < 0.7
      · rw [if_pos hb]
        exact iff_of_false (fun h => RiskLevel.noConfusion h) (fun h => by linarith)
      · rw [if_neg hb]
        exact iff_of_true rfl (le_of_not_lt hb)
  exact ⟨h1, h2, hp1, hp2, by rw [hr]; exact hrb.1, by rw [hr]; exact hrb.2,
    hlow, hmed, hhigh⟩

/-- The clamped logit of the scenario-1 request: the loan-to-income
term contributes 200000/75000 * 1.8 = 4.8, so the logit reaches 2.5174
(inside the clamp interval). -/
lemma std_clampedLogit : clampedLogit standardRequest.dict = 12587 / 5000 := by
  norm_num [clampedLogit, linearCombo, standardRequest, CreditRiskRequest.dict,
    incomeOf, creditScoreOf, debtRatioOf, empYearsOf, ageOf, loanAmountOf,
    socialRiskOf, deviceScoreOf, numProductsOf, hasInvestmentOf,
    latePaymentsOf, overdraftsOf, tenureOf, min_def, max_def]

/-- The clamped probability of the scenario-1 request hits the upper
clamp: sigmoid(2.5174) is about 0.925. -/
lemma std_riskProbability : riskProbability standardRequest.dict = 0.85 := by
  refine prob_eq_085_of_cube std_clampedLogit ?_ ?_
  · push_cast
    norm_num
  · push_cast
    norm_num

/-- C2 counterexample: on the scenario-1 input (all optional fields at
their request-layer defaults) the engine does NOT return a low risk
level with probability below 0.3. -/
theorem C2_counterexample :
    ¬ (riskLevel standardRequest.dict = RiskLevel.low ∧
       riskProbability standardRequest.dict < 0.3) := by
  rintro ⟨h1, h2⟩
  rw [std_riskProbability] at h2
  norm_num at h2

/-- C2 amended: the scenario-1 input is scored as HIGH risk with the
clamped probability exactly at the upper bound 0.85 (the loan-to-income
term alone contributes +4.8 to the logit), and the returned rounded
probability is also 0.85. -/
theorem C2_amended_standard_is_high :
    riskLevel standardRequest.dict = RiskLevel.high ∧
    riskProbability standardRequest.dict = 0.85 ∧
    (calculateComprehensiveAssessment standardRequest.dict).risk_probability = 0.85 := by
  have h := std_riskProbability
  refine ⟨riskLevel_high_of_085 h, h, ?_⟩
  have hr : (calculateComprehensiveAssessment standardRequest.dict).risk_probability =
      round4 (riskProbability standardRequest.dict) := rfl
  rw [hr, h, round4_085]

/-- Both scenario-2 variants drive the raw logit far above 4.5, so it
clamps to 4.5 exactly. -/
lemma hr_clampedLogit :
    clampedLogit (highRiskRequest 0.8).dict = 9 / 2 ∧
    clampedLogit (highRiskRequest 4).dict = 9 / 2 := by
  constructor <;>
    norm_num [clampedLogit, linearCombo, highRiskRequest, CreditRiskRequest.dict,
      incomeOf, creditScoreOf, debtRatioOf, empYearsOf, ageOf, loanAmountOf,
      socialRiskOf, deviceScoreOf, numProductsOf, hasInvestmentOf,
      latePaymentsOf, overdraftsOf, tenureOf, min_def, max_def]

/-- C7: the scenario-2 input (Income 35000, Age 24, LoanAmount 250000,
CreditScore 580, DebtToIncome 0.65, EmploymentYears 2, LatePayments 4,
OverdraftEvents 6) is scored high risk with probability at least 0.7,
both with SocialMediaRiskScore 0.8 and with 4. -/
theorem C7_high_risk_scenario :
    riskLevel (highRiskRequest 0.8).dict = RiskLevel.high ∧
    (0.7 : ℝ) ≤ riskProbability (highRiskRequest 0.8).dict ∧
    riskLevel (highRiskRequest 4).dict = RiskLevel.high ∧
    (0.7 : ℝ) ≤ riskProbability (highRiskRequest 4).dict := by
  have h1 : riskProbability (highRiskRequest 0.8).dict = 0.85 := by
    refine prob_eq_085_of_cube hr_clampedLogit.1 ?_ ?_
    · push_cast
      norm_num
    · push_cast
      norm_num
  have h2 : riskProbability (highRiskRequest 4).dict = 0.85 := by
    refine prob_eq_085_of_cube hr_clampedLogit.2 ?_ ?_
    · push_cast
      norm_num
    · push_cast
      norm_num
  refine ⟨riskLevel_high_of_085 h1, by rw [h1]; norm_num,
    riskLevel_high_of_085 h2, by rw [h2]; norm_num⟩

/-- Lookup in the fallback coefficient table. -/
lemma predictStep_fallback (acc : ℚ) (p : String × ℚ) (hp : p.1 ≠ "Fallback") :
    predictStep fallbackModel.coefficients acc p = acc := by
  unfold predictStep coeffLookup fallbackModel
  by_cases h1 : "Intercept" = p.1
  · simp [List.find?, h1]
  · have h2 : ¬ ("Fallback" = p.1) := fun h => hp h.symm
    simp [List.find?, h1, h2]

/-- Under the fallback table, features contribute nothing to the logit
unless one of them is literally named Fallback. -/
lemma predictLogit_fallback (pairs : List (String × ℚ))
    (h : ∀ p ∈ pairs, p.1 ≠ "Fallback") :
    predictLogit fallbackModel.coefficients pairs = 0 := by
  unfold predictLogit
  have haux : ∀ (l : List (String × ℚ)), (∀ p ∈ l, p.1 ≠ "Fallback") →
      ∀ acc : ℚ, l.foldl (predictStep fallbackModel.coefficients) acc = acc := by
    intro l
    induction l with
    | nil => intro _ acc; rfl
    | cons p ps ih =>
      intro hl acc
      rw [List.foldl_cons, predictStep_fallback acc p (hl p (by simp))]
      exact ih (fun q hq => hl q (by simp [hq])) acc
  rw [haux pairs h]
  rfl

/-- The sigmoid at logit zero is exactly one half. -/
lemma sigmoid_zero : sigmoid ((0 : ℚ) : ℝ) = 1 / 2 := by
  unfold sigmoid
  rw [Rat.cast_zero, neg_zero, Real.exp_zero]
  norm_num

/-- C3: with the fallback coefficient table and a feature record that
contains no Fallback key, the linear scorer computes logit exactly 0,
probability exactly 0.5, and classifies low risk (0.5 > 0.5 is false). -/
theorem C3_fallback_scores_half (pairs : List (String × ℚ))
    (h : ∀ p ∈ pairs, p.1 ≠ "Fallback") :
    predictLogit fallbackModel.coefficients pairs = 0 ∧
    (predictCore fallbackModel pairs).risk_probability = 1 / 2 ∧
    (predictCore fallbackModel pairs).prediction = "low_risk" := by
  have h0 := predictLogit_fallback pairs h
  have hsig : sigmoid ((predictLogit fallbackModel.coefficients pairs : ℚ) : ℝ) =
      1 / 2 := by
    rw [h0]
    exact sigmoid_zero
  refine ⟨h0, ?_, ?_⟩
  · show sigmoid ((predictLogit fallbackModel.coefficients pairs : ℚ) : ℝ) = 1 / 2
    exact hsig
  · show (if sigmoid ((predictLogit fallbackModel.coefficients pairs : ℚ) : ℝ) > 0.5
        then "high_risk" else "low_risk") = "low_risk"
    rw [hsig, if_neg (by norm_num)]

/-- Witness for C3 at the scenario-1 request (none of whose feature
names is Fallback). -/
theorem C3_witness :
    (∀ p ∈ standardRequest.toPairs, p.1 ≠ "Fallback") ∧
    (predictLogit fallbackModel.coefficients standardRequest.toPairs = 0 ∧
     (predictCore fallbackModel standardRequest.toPairs).risk_probability = 1 / 2 ∧
     (predictCore fallbackModel standardRequest.toPairs).prediction = "low_risk") :=
  ⟨by decide, C3_fallback_scores_half standardRequest.toPairs (by decide)⟩

/-- C4 counterexample: when the artifact source is unavailable the
service does NOT fail with 503; the fallback table is substituted and
the endpoint answers. -/
theorem C4_counterexample :
    predictCreditRisk (loadSasModel ArtifactSource.missing) standardRequest ≠
      Except.error 503 := by
  have hready : (loadSasModel ArtifactSource.missing).model_ready = true := rfl
  unfold predictCreditRisk
  rw [if_pos hready]
  intro h
  exact Except.noConfusion h

/-- C4 amended: an EMPTY loaded coefficient table makes predict fail
with 503 (model not ready), but an UNAVAILABLE artifact source loads
the fallback table with model_ready = true, so the endpoint answers
instead of failing (and, by C3, answers probability 0.5). -/
theorem C4_empty_fails_missing_falls_back (name : String) (r : CreditRiskRequest) :
    predictCreditRisk (loadSasModel (ArtifactSource.files [] name)) r =
      Except.error 503 ∧
    (loadSasModel ArtifactSource.missing).model_ready = true ∧
    (loadSasModel ArtifactSource.missing).coefficients =
      [("Intercept", 0), ("Fallback", 1)] ∧
    predictCreditRisk (loadSasModel ArtifactSource.missing) r =
      Except.ok (predictCore fallbackModel r.toPairs) := by
  refine ⟨?_, rfl, rfl, ?_⟩
  · have hnot : ¬ ((loadSasModel (ArtifactSource.files [] name)).model_ready = true) :=
      fun h => Bool.noConfusion h
    unfold predictCreditRisk
    rw [if_neg hnot]
  · have hready : (loadSasModel ArtifactSource.missing).model_ready = true := rfl
    unfold predictCreditRisk
    rw [if_pos hready]
    rfl

/-- C5 counterexample: for a feature dictionary with every optional key
absent, the engine does NOT substitute the documented request-layer
defaults (it uses 3 for the social-media score, 50 for the device
score and 0 for overdraft events). -/
theorem C5_counterexample :
    ¬ (socialRiskOf emptyFeatures = 0.3 ∧ deviceScoreOf emptyFeatures = 0.7 ∧
       numProductsOf emptyFeatures = 2 ∧ hasInvestmentOf emptyFeatures = false ∧
       tenureOf emptyFeatures = empYearsOf emptyFeatures * 12 ∧
       latePaymentsOf emptyFeatures = 0 ∧ overdraftsOf emptyFeatures = 1) := by
  rintro ⟨h1, -⟩
  have : (3 : ℚ) = 0.3 := h1
  norm_num at this

/-- C5 amended: the engine itself substitutes 3, 50, 2, false,
EmploymentYears*12, 0 and 0 for absent optional keys; the documented
defaults 0.3, 0.7, 2, false, 24, 0 and 1 are substituted one layer up,
by the pydantic request model (whose AccountTenure default is the
constant 24, not EmploymentYears*12). -/
theorem C5_engine_and_request_defaults (f : FeatureRecord) (r : CreditRiskRequest) :
    (f.SocialMediaRiskScore = none → socialRiskOf f = 3) ∧
    (f.DeviceUsageScore = none → deviceScoreOf f = 50) ∧
    (f.NumberOfProducts = none → numProductsOf f = 2) ∧
    (f.HasInvestmentAccount = none → hasInvestmentOf f = false) ∧
    (f.AccountTenure = none → tenureOf f = empYearsOf f * 12) ∧
    (f.LatePayments = none → latePaymentsOf f = 0) ∧
    (f.OverdraftEvents = none → overdraftsOf f = 0) ∧
    (r.SocialMediaRiskScore = none → r.dict.SocialMediaRiskScore = some 0.3) ∧
    (r.DeviceUsageScore = none → r.dict.DeviceUsageScore = some 0.7) ∧
    (r.NumberOfProducts = none → r.dict.NumberOfProducts = some 2) ∧
    (r.HasInvestmentAccount = none → r.dict.HasInvestmentAccount = some false) ∧
    (r.AccountTenure = none → r.dict.AccountTenure = some 24) ∧
    (r.LatePayments = none → r.dict.LatePayments = some 0) ∧
    (r.OverdraftEvents = none → r.dict.OverdraftEvents = some 1) := by
  refine ⟨?_, ?_, ?_, ?_, ?_, ?_, ?_, ?_, ?_, ?_, ?_, ?_, ?_, ?_⟩ <;> intro h <;>
    simp [socialRiskOf, deviceScoreOf, numProductsOf, hasInvestmentOf, tenureOf,
      latePaymentsOf, overdraftsOf, CreditRiskRequest.dict, h]

/-- Witness for C5 amended, at the all-absent dictionary and the
scenario-1 request (whose optional fields are all absent). -/
theorem C5_witness :
    socialRiskOf emptyFeatures = 3 ∧ deviceScoreOf emptyFeatures = 50 ∧
    overdraftsOf emptyFeatures = 0 ∧
    tenureOf emptyFeatures = empYearsOf emptyFeatures * 12 ∧
    standardRequest.dict.AccountTenure = some 24 ∧
    standardRequest.dict.OverdraftEvents = some 1 := by
  obtain ⟨a1, a2, a3, a4, a5, a6, a7, a8, a9, a10, a11, a12, a13, a14⟩ :=
    C5_engine_and_request_defaults emptyFeatures standardRequest
  exact ⟨a1 rfl, a2 rfl, a7 rfl, a5 rfl, a12 rfl, a14 rfl⟩

/-- C6: when the model state is ready, the comprehensive-assessment
endpoint returns the assembled response; its regulatory flags contain
the high-DTI flag exactly when DebtToIncome exceeds 0.43 and the
young-borrower flag exactly when Age is below 21, and its confidence
interval is the returned probability plus/minus 0.1, clamped to then
interval [0, 1]. -/
theorem C6_flags_and_confidence (st : LoaderState) (r : CreditRiskRequest)
    (h : st.model_ready = true) :
    comprehensiveCreditAssessment st r = Except.ok (comprehensiveResponse r) ∧
    ("High DTI - QM rule consideration" ∈ (comprehensiveResponse r).regulatory_flags ↔
      r.DebtToIncome > 0.43) ∧
    ("Young borrower - additional verification required" ∈
        (comprehensiveResponse r).regulatory_flags ↔ r.Age < 21) ∧
    (comprehensiveResponse r).confidence_lower =
      max 0 ((comprehensiveResponse r).risk_probability - 0.1) ∧
    (comprehensiveResponse r).confidence_upper =
      min 1 ((comprehensiveResponse r).risk_probability + 0.1) := by
  have hflags : (comprehensiveResponse r).regulatory_flags =
      (if r.DebtToIncome > 0.43 then ["High DTI - QM rule consideration"] else []) ++
      (if r.Age < 21 then ["Young borrower - additional verification required"] else []) := by
    simp [comprehensiveResponse, CreditRiskRequest.dict]
  refine ⟨?_, ?_, ?_, rfl, rfl⟩
  · unfold comprehensiveCreditAssessment
    rw [if_pos h]
  · rw [hflags]
    by_cases hD : r.DebtToIncome > 0.43 <;> by_cases hA : r.Age < 21 <;>
      simp [hD, hA]
  · rw [hflags]
    by_cases hD : r.DebtToIncome > 0.43 <;> by_cases hA : r.Age < 21 <;>
      simp [hD, hA]

/-- Witness for C6 at the fallback loader state and the scenario-1
request. -/
theorem C6_witness :
    (loadSasModel ArtifactSource.missing).model_ready = true ∧
    (comprehensiveCreditAssessment (loadSasModel ArtifactSource.missing)
        standardRequest = Except.ok (comprehensiveResponse standardRequest) ∧
     ("High DTI - QM rule consideration" ∈
        (comprehensiveResponse standardRequest).regulatory_flags ↔
        standardRequest.DebtToIncome > 0.43) ∧
     ("Young borrower - additional verification required" ∈
        (comprehensiveResponse standardRequest).regulatory_flags ↔
        standardRequest.Age < 21) ∧
     (comprehensiveResponse standardRequest).confidence_lower =
        max 0 ((comprehensiveResponse standardRequest).risk_probability - 0.1) ∧
     (comprehensiveResponse standardRequest).confidence_upper =
        min 1 ((comprehensiveResponse standardRequest).risk_probability + 0.1)) :=
  ⟨rfl, C6_flags_and_confidence (loadSasModel ArtifactSource.missing)
    standardRequest rfl⟩

/-- C8: loading the coefficient file with the entries Intercept,0.1 and
CreditScore,-0.002 yields exactly those two coefficients, serializing
that table reproduces the file verbatim, and re-loading the serialized
form preserves both entries exactly. -/
theorem C8_roundtrip :
    loadCoefficients c8File =
      some [("Intercept", mkRat 1 10), ("CreditScore", mkRat (-1) 500)] ∧
    serializeCoefficients [("Intercept", mkRat 1 10), ("CreditScore", mkRat (-1) 500)] =
      c8File ∧
    loadCoefficients
        (serializeCoefficients
          [("Intercept", mkRat 1 10), ("CreditScore", mkRat (-1) 500)]) =
      some [("Intercept", mkRat 1 10), ("CreditScore", mkRat (-1) 500)] := by
  refine ⟨by decide, by decide, by decide⟩

/-- Sanity link between the mkRat presentation and the decimal values:
the two loaded coefficients are exactly 0.1 and -0.002. -/
lemma c8_values : (mkRat 1 10 : ℚ) = 0.1 ∧ (mkRat (-1) 500 : ℚ) = -0.002 := by
  rw [Rat.mkRat_eq_div, Rat.mkRat_eq_div]
  norm_num

/-- C9: because the logit is clamped to [-4.5, 4.5] before the sigmoid,
the sigmoid value always lies between 1/(1+e^4.5) and 1/(1+e^-4.5); the
lower bound exceeds the documented 0.005 clamp, so the lower clamp never
changes the value and the clamped probability is exactly the minimum of
the sigmoid value and 0.85. -/
theorem C9_lower_clamp_never_fires (f : FeatureRecord) :
    1 / (1 + Real.exp 4.5) ≤ sigmoid ((clampedLogit f : ℚ) : ℝ) ∧
    sigmoid ((clampedLogit f : ℚ) : ℝ) ≤ 1 / (1 + Real.exp (-4.5)) ∧
    (0.005 : ℝ) < 1 / (1 + Real.exp 4.5) ∧
    riskProbability f = min 0.85 (sigmoid ((clampedLogit f : ℚ) : ℝ)) := by
  have hlo : (-4.5 : ℝ) ≤ ((clampedLogit f : ℚ) : ℝ) := by
    have h : (-4.5 : ℚ) ≤ clampedLogit f := le_max_left _ _
    calc (-4.5 : ℝ) = ((-4.5 : ℚ) : ℝ) := by norm_num
      _ ≤ _ := by exact_mod_cast h
  have hhi : ((clampedLogit f : ℚ) : ℝ) ≤ 4.5 := by
    have h : clampedLogit f ≤ (4.5 : ℚ) := max_le (by norm_num) (min_le_left _ _)
    calc ((clampedLogit f : ℚ) : ℝ) ≤ ((4.5 : ℚ) : ℝ) := by exact_mod_cast h
      _ = 4.5 := by norm_num
  have hneg : sigmoid (-4.5) = 1 / (1 + Real.exp 4.5) := by
    unfold sigmoid
    rw [neg_neg]
  have h1 : 1 / (1 + Real.exp 4.5) ≤ sigmoid ((clampedLogit f : ℚ) : ℝ) := by
    rw [← hneg]
    exact sigmoid_le_sigmoid hlo
  have h2 : sigmoid ((clampedLogit f : ℚ) : ℝ) ≤ 1 / (1 + Real.exp (-4.5)) := by
    have : sigmoid (4.5 : ℝ) = 1 / (1 + Real.exp (-4.5)) := rfl
    rw [← this]
    exact sigmoid_le_sigmoid hhi
  have h3 : (0.005 : ℝ) < 1 / (1 + Real.exp 4.5) := by
    rw [lt_div_iff (by positivity)]
    have := exp_45_lt_199
    linarith
  refine ⟨h1, h2, h3, ?_⟩
  unfold riskProbability
  exact max_eq_right (le_min (by norm_num) (le_trans (le_of_lt h3) h1))

/-- C10: the risk_adjusted_pricing field is the annual rate in percent,
rounded to two decimals: (0.045 + premium) * 100, i.e. exactly 4.5 for
low risk, 6 for medium risk and 8 for high risk, not the fractional
rate itself. -/
theorem C10_pricing_is_percent (f : FeatureRecord) :
    (calculateComprehensiveAssessment f).risk_adjusted_pricing =
      round2q ((0.045 + riskPremium ((calculateComprehensiveAssessment f).risk_level)) * 100) ∧
    (calculateComprehensiveAssessment f).risk_adjusted_pricing =
      (if (calculateComprehensiveAssessment f).risk_level = RiskLevel.low then 4.5
       else if (calculateComprehensiveAssessment f).risk_level = RiskLevel.medium then 6
       else 8) := by
  have hpr : (calculateComprehensiveAssessment f).risk_adjusted_pricing =
      round2q ((0.045 + riskPremium (riskLevel f)) * 100) := rfl
  have hlv : (calculateComprehensiveAssessment f).risk_level = riskLevel f := rfl
  have e1 : round2q ((0.045 + riskPremium RiskLevel.low) * 100) = 9 / 2 := by
    rw [round2q,
      show ((0.045 + riskPremium RiskLevel.low) * 100) * 100 = ((450 : ℤ) : ℚ) by
        norm_num [riskPremium],
      round_intCast]
    norm_num
  have e2 : round2q ((0.045 + riskPremium RiskLevel.medium) * 100) = 6 := by
    rw [round2q,
      show ((0.045 + riskPremium RiskLevel.medium) * 100) * 100 = ((600 : ℤ) : ℚ) by
        norm_num [riskPremium],
      round_intCast]
    norm_num
  have e3 : round2q ((0.045 + riskPremium RiskLevel.high) * 100) = 8 := by
    rw [round2q,
      show ((0.045 + riskPremium RiskLevel.high) * 100) * 100 = ((800 : ℤ) : ℚ) by
        norm_num [riskPremium],
      round_intCast]
    norm_num
  rw [hpr, hlv]
  cases h : riskLevel f
  · refine ⟨rfl, ?_⟩
    rw [e1, if_pos rfl]
    norm_num
  · refine ⟨rfl, ?_⟩
    rw [e2, if_neg (by decide), if_pos rfl]
  · refine ⟨rfl, ?_⟩
    rw [e3, if_neg (by decide), if_neg (by decide)]

end SasBanking
